import Mathlib

/-!
# Verification of icloud-photos-sync core claims

Shallow embedding of the parts of the `icloud-photos-sync` code base that
the claims C1-C10 are about:

* `src/app/src/lib/icloud/mfa/mfa-method.ts` — `MFAMethod` (method type,
  success predicates, resend-error processing) and the `ErrorHandler`
  (`handle`, `cleanEnv`).
* `src/app/src/app/icloud-app.ts` — library-lock acquisition/release and the
  `iCloudApp`/`SyncApp`/`ArchiveApp` run/clean control flow.
* The MFA HTTP server (`mfa-server.ts`) is not part of the provided sources
  (only its unit tests are); its handlers are modelled from the spec, as
  marked on the respective definitions.

Machine state that the code manipulates (the lock file, `process.env`,
`process.argv`, `process.execArgv`) is made explicit as values; fallible
operations return `Except`.
-/

/-! ## MFAMethod (src/app/src/lib/icloud/mfa/mfa-method.ts) -/

/-- The `MFAMethodType` enum of mfa-method.ts. -/
inductive MFAMethodType where
  | device
  | sms
  | voice
deriving DecidableEq, Repr

/-- The `MFAMethod` class state: a method type together with the number id,
which is `undefined` (here `none`) for the `device` method. -/
structure MFAMethod where
  type : MFAMethodType
  numberId : Option Nat
deriving DecidableEq, Repr

/-- `MFAMethod.update`: selects the method type from the given string
(anything other than `sms`/`voice` falls to the `device` default) and stores
the number id for phone methods, clearing it for `device`.  The class
constructor delegates to this with defaults `device` and `1`. -/
def MFAMethod.update (mfaMethod : String) (numberId : Nat) : MFAMethod :=
  match mfaMethod with
  | "sms" => ⟨MFAMethodType.sms, some numberId⟩
  | "voice" => ⟨MFAMethodType.voice, some numberId⟩
  | _ => ⟨MFAMethodType.device, none⟩

/-- Rendering of an optional number id, `undefined` when absent (as JS
string interpolation would print it). -/
def optNatToString : Option Nat → String
  | some n => toString n
  | none => "undefined"

/-- `MFAMethod.toString`. -/
def MFAMethod.toStr (m : MFAMethod) : String :=
  match m.type with
  | MFAMethodType.sms => "\x27SMS\x27 (Number ID: " ++ optNatToString m.numberId ++ ")"
  | MFAMethodType.voice => "\x27Voice\x27 (Number ID: " ++ optNatToString m.numberId ++ ")"
  | MFAMethodType.device => "\x27Device\x27"

/-- `MFAMethod.resendSuccessful`: status check of a resend response, keyed on
the active method. -/
def MFAMethod.resendSuccessful (m : MFAMethod) (status : Nat) : Bool :=
  match m.type with
  | MFAMethodType.voice => status == 200
  | MFAMethodType.sms => status == 200
  | MFAMethodType.device => status == 202

/-- `MFAMethod.enterSuccessful`: status check of a code-submission response,
keyed on the active method. -/
def MFAMethod.enterSuccessful (m : MFAMethod) (status : Nat) : Bool :=
  match m.type with
  | MFAMethodType.voice => status == 200
  | MFAMethodType.sms => status == 200
  | MFAMethodType.device => status == 204

/-- C5: submitting an MFA code is judged successful exactly for status 204
with the device method and exactly for status 200 with the sms/voice
methods. -/
theorem enterSuccessful_status_spec :
    ∀ (m : MFAMethod) (status : Nat),
      (m.enterSuccessful status = true ↔
        (if m.type = MFAMethodType.device then status = 204 else status = 200)) := by
  intro m status
  cases h : m.type <;>
    simp [MFAMethod.enterSuccessful, h]

/-- C9: resending an MFA code is judged successful exactly for status 202
with the device method and exactly for status 200 with the sms/voice
methods; for the device method the resend success status 202 differs from
the enter success status 204 (and conversely). -/
theorem resendSuccessful_status_spec :
    ∀ (m : MFAMethod) (status : Nat),
      (m.resendSuccessful status = true ↔
        (if m.type = MFAMethodType.device then status = 202 else status = 200)) ∧
      (m.type = MFAMethodType.device →
        m.resendSuccessful 202 = true ∧ m.enterSuccessful 202 = false ∧
        m.resendSuccessful 204 = false ∧ m.enterSuccessful 204 = true) := by
  intro m status
  cases h : m.type <;>
    simp [MFAMethod.resendSuccessful, MFAMethod.enterSuccessful, h]

/-! ## processResendError (src/app/src/lib/icloud/mfa/mfa-method.ts, lines 153-187) -/

/-- One entry of the `trustedPhoneNumbers` array of a 412 response. -/
structure PhoneNumber where
  id : Nat
  numberWithDialCode : String
deriving DecidableEq, Repr

/-- The `data` field of an error response, as inspected by
`processResendError` (`trustedPhoneNumbers` may be absent). -/
structure ErrResponseData where
  trustedPhoneNumbers : Option (List PhoneNumber)
deriving DecidableEq, Repr

/-- The `response` field of an Axios error. -/
structure ErrResponse where
  status : Nat
  data : Option ErrResponseData
deriving DecidableEq, Repr

/-- An error value as received by `processResendError`: a `name` and an
optional `response`. -/
structure RequestError where
  name : String
  response : Option ErrResponse
deriving DecidableEq, Repr

/-- `MFAMethod.processResendError`, returning the message of the produced
`iCloudWarning` (cause/context attachments carry no information relevant to
the claims).  The guard structure mirrors the source: non-Axios errors and
missing responses short-circuit, then 403, then 412 (with the
trusted-phone-number inspection for the phone methods), and everything that
falls through lands on the generic `Bad request` message. -/
def MFAMethod.processResendError (m : MFAMethod) (err : RequestError) : String :=
  if err.name != "AxiosError" then "No response received"
  else
    match err.response with
    | none => "No response received"
    | some resp =>
      if resp.status == 403 then "Timeout"
      else if resp.status == 412 then
        match resp.data with
        | none => "Bad request, no response data"
        | some d =>
          if m.type == MFAMethodType.sms || m.type == MFAMethodType.voice then
            match d.trustedPhoneNumbers with
            | none => "No trusted phone numbers registered"
            | some phones =>
              if phones.isEmpty then "No trusted phone numbers registered"
              else if !(phones.any (fun p => some p.id == m.numberId)) then
                "Selected Phone Number ID does not exist.\nAvailable numbers:\n" ++
                  String.intercalate "\n"
                    (phones.map (fun p => "- " ++ toString p.id ++ ": " ++ p.numberWithDialCode))
              else "Bad request, unknown cause with method " ++ m.toStr
          else "Bad request, unknown cause with method " ++ m.toStr
      else "Bad request, unknown cause with method " ++ m.toStr

/-- C4: for a phone method with number id `n`, a 412 resend failure whose
data lists trusted phone numbers none of which has id `n` produces the
warning naming the selected-id problem followed by one `- id: number` line
per trusted number, in list order. -/
theorem processResendError_unknown_id_spec
    (m : MFAMethod) (err : RequestError) (n : Nat)
    (resp : ErrResponse) (d : ErrResponseData) (phones : List PhoneNumber)
    (hType : m.type = MFAMethodType.sms ∨ m.type = MFAMethodType.voice)
    (hId : m.numberId = some n)
    (hName : err.name = "AxiosError")
    (hResp : err.response = some resp)
    (hStatus : resp.status = 412)
    (hData : resp.data = some d)
    (hPhones : d.trustedPhoneNumbers = some phones)
    (hNonEmpty : phones ≠ [])
    (hNoMatch : ∀ p ∈ phones, p.id ≠ n) :
    m.processResendError err =
      "Selected Phone Number ID does not exist.\nAvailable numbers:\n" ++
        String.intercalate "\n"
          (phones.map (fun p => "- " ++ toString p.id ++ ": " ++ p.numberWithDialCode)) := by
  have hAny : phones.any (fun p => some p.id == m.numberId) = false := by
    rw [List.any_eq_false]
    intro p hp
    simp [hId]
    exact hNoMatch p hp
  have hT : (m.type == MFAMethodType.sms || m.type == MFAMethodType.voice) = true := by
    rcases hType with h | h <;> simp [h]
  simp [MFAMethod.processResendError, hName, hResp, hStatus, hData, hPhones, hT, hAny,
    List.isEmpty_iff, hNonEmpty]

/-- Witness for C4 at the scenario of the unit test: sms method with default
number id 1, trusted list with ids 2 and 3. -/
theorem processResendError_unknown_id_witness :
    (MFAMethod.update "sms" 1).numberId = some 1 ∧
    (MFAMethod.update "sms" 1).processResendError
        ⟨"AxiosError", some ⟨412, some ⟨some [⟨2, "+49-123-456"⟩, ⟨3, "+49-789-123"⟩]⟩⟩⟩ =
      "Selected Phone Number ID does not exist.\nAvailable numbers:\n- 2: +49-123-456\n- 3: +49-789-123" := by
  refine ⟨by decide, ?_⟩
  rw [processResendError_unknown_id_spec (MFAMethod.update "sms" 1)
    ⟨"AxiosError", some ⟨412, some ⟨some [⟨2, "+49-123-456"⟩, ⟨3, "+49-789-123"⟩]⟩⟩⟩ 1
    ⟨412, some ⟨some [⟨2, "+49-123-456"⟩, ⟨3, "+49-789-123"⟩]⟩⟩
    ⟨some [⟨2, "+49-123-456"⟩, ⟨3, "+49-789-123"⟩]⟩
    [⟨2, "+49-123-456"⟩, ⟨3, "+49-789-123"⟩]
    (Or.inl rfl) rfl rfl rfl rfl rfl rfl (by decide) (by decide)]
  decide

/-! ## Library lock (src/app/src/app/icloud-app.ts, `iCloudApp`) -/

/-- `iCloudApp.acquireLibraryLock`, over the explicit state of the
`.library.lock` file in the data dir (`none` = file absent, `some c` = file
present with content `c`).  `pid` is `process.pid`, `force` the `force`
option.  On success the new lock-file content is returned; on failure the
thrown `LibraryError` message is returned and the file is untouched (the
source throws before any write). -/
def acquireLibraryLock (lockFile : Option String) (pid : Nat) (force : Bool) :
    Except String (Option String) :=
  match lockFile with
  | some content =>
    if !force then
      Except.error ("Locked by PID " ++ content ++
        ". Use --force (or FORCE env variable) to forcefully remove the lock")
    else
      Except.ok (some (toString pid))
  | none => Except.ok (some (toString pid))

/-- `iCloudApp.releaseLibraryLock`, over the same explicit lock-file state.
On success the file has been removed (`.ok none`); on failure the thrown
`LibraryError` message is returned and the file is untouched. -/
def releaseLibraryLock (lockFile : Option String) (pid : Nat) (force : Bool) :
    Except String (Option String) :=
  match lockFile with
  | none => Except.error "Unable to release library lock, no lock exists"
  | some content =>
    if content != toString pid && !force then
      Except.error ("Locked by PID " ++ content ++
        ", cannot release. Use --force (or FORCE env variable) to forcefully remove the lock")
    else
      Except.ok none

/-- C6: acquiring the library lock fails with a message naming the owning
PID, leaving the file untouched, exactly when the lock file exists and the
force option is unset; in every other case the current PID is written. -/
theorem acquireLibraryLock_spec :
    ∀ (lockFile : Option String) (pid : Nat) (force : Bool),
      (∀ c, lockFile = some c → force = false →
        acquireLibraryLock lockFile pid force =
          Except.error ("Locked by PID " ++ c ++
            ". Use --force (or FORCE env variable) to forcefully remove the lock")) ∧
      ((lockFile = none ∨ force = true) →
        acquireLibraryLock lockFile pid force = Except.ok (some (toString pid))) := by
  intro lockFile pid force
  cases lockFile <;> cases force <;>
    simp [acquireLibraryLock]

/-- C1 counterexample: with the force option set, `releaseLibraryLock`
deletes the lock file even though its content (here `999`) is not the
current process's PID (here `1`) — refuting that deletion happens only when
the content equals the PID. -/
theorem releaseLibraryLock_force_counterexample :
    releaseLibraryLock (some "999") 1 true = Except.ok none ∧
    toString (1 : Nat) = "1" ∧ "999" ≠ "1" := by
  refine ⟨by rfl, by rfl, by decide⟩

/-- C1 (amended): `releaseLibraryLock` removes the lock file iff the file
exists and its content equals the current process's PID or the force option
is set; when the file is absent, or owned by a different PID without force,
it errors and the file is untouched. -/
theorem releaseLibraryLock_spec :
    ∀ (lockFile : Option String) (pid : Nat) (force : Bool),
      (releaseLibraryLock lockFile pid force = Except.ok none ↔
        (∃ c, lockFile = some c ∧ (c = toString pid ∨ force = true))) ∧
      (lockFile = none →
        releaseLibraryLock lockFile pid force =
          Except.error "Unable to release library lock, no lock exists") ∧
      (∀ c, lockFile = some c → c ≠ toString pid → force = false →
        releaseLibraryLock lockFile pid force =
          Except.error ("Locked by PID " ++ c ++
            ", cannot release. Use --force (or FORCE env variable) to forcefully remove the lock")) := by
  intro lockFile pid force
  cases lockFile with
  | none => simp [releaseLibraryLock]
  | some c =>
    cases force <;>
      by_cases h : c = toString pid <;>
        simp [releaseLibraryLock, h]

/-! ## ErrorHandler.handle (error-handler source, lines 314-344) -/

/-- Observable outcome of one `ErrorHandler.handle` call: whether a crash
report was actually sent to the backend, whether the process exited (and
with which code), and which of the two events was emitted. -/
structure HandleOutcome where
  reportSent : Bool
  exitCode : Option Nat
  warnEmitted : Bool
  errorEmitted : Bool
deriving DecidableEq, Repr

/-- `ErrorHandler.handle` over the error's severity string (`sev`), whether
the error is an `InterruptError` (`isInterrupt`), and whether the crash
reporting client is initialized (`btClientEnabled`).  `shouldReport` guards
the `reportError` call, which actually sends a report only when a client
exists; `shouldExit` guards `process.exit(1)`; the severity switch emits
`WARN_EVENT` for `WARN` and `ERROR_EVENT` otherwise. -/
def ErrorHandler.handle (sev : String) (isInterrupt : Bool) (btClientEnabled : Bool) :
    HandleOutcome :=
  let shouldReport := sev == "FATAL" && !isInterrupt
  let shouldExit := sev == "FATAL"
  ⟨shouldReport && btClientEnabled,
   if shouldExit then some 1 else none,
   sev == "WARN",
   sev != "WARN"⟩

/-- C7: `handle` exits the process with code 1 iff the severity is `FATAL`
(a `WARN` error emits a warning and continues), and a crash report is sent
iff the severity is `FATAL`, crash reporting is enabled, and the error is
not an `InterruptError`. -/
theorem errorHandler_handle_spec :
    ∀ (sev : String) (isInterrupt btClientEnabled : Bool),
      ((ErrorHandler.handle sev isInterrupt btClientEnabled).exitCode = some 1 ↔
        sev = "FATAL") ∧
      ((ErrorHandler.handle sev isInterrupt btClientEnabled).reportSent = true ↔
        (sev = "FATAL" ∧ btClientEnabled = true ∧ isInterrupt = false)) ∧
      (sev = "WARN" →
        (ErrorHandler.handle sev isInterrupt btClientEnabled).warnEmitted = true ∧
        (ErrorHandler.handle sev isInterrupt btClientEnabled).exitCode = none) := by
  intro sev isInterrupt btClientEnabled
  by_cases h : sev = "FATAL" <;>
    cases isInterrupt <;> cases btClientEnabled <;>
      simp_all [ErrorHandler.handle]

/-! ## ErrorHandler.cleanEnv (error-handler source, lines 385-427) -/

/-- One entry of the `confidentialData` table: the environment variable, the
CLI flags, and the placeholder that replaces the credential. -/
structure CredentialEntry where
  envKey : String
  cli : List String
  replacement : String
deriving DecidableEq, Repr

/-- The `confidentialData` table of `cleanEnv`, in `Object.values` order. -/
def confidentialData : List CredentialEntry :=
  [⟨"APPLE_ID_USER", ["-u", "--username"], "<APPLE ID USERNAME>"⟩,
   ⟨"APPLE_ID_PWD", ["-p", "--password"], "<APPLE ID PASSWORD>"⟩,
   ⟨"TRUST_TOKEN", ["-T", "--trust-token"], "<TRUST TOKEN>"⟩]

/-- The process-visible state mutated by `cleanEnv`: `process.env` as a
key-value list, and `process.argv` / `process.execArgv` as JS arrays whose
cells may be holes (`none`, reading as `undefined`). -/
structure ProcessState where
  env : List (String × String)
  argv : List (Option String)
  execArgv : List (Option String)
deriving DecidableEq, Repr

/-- Lookup of `process.env[k]`. -/
def envGet (e : List (String × String)) (k : String) : Option String :=
  (e.find? (fun kv => kv.1 == k)).map (fun kv => kv.2)

/-- Assignment `process.env[k] = v` (updates the entry, appending when the
key is new). -/
def envSet (e : List (String × String)) (k v : String) : List (String × String) :=
  if e.any (fun kv => kv.1 == k) then
    e.map (fun kv => if kv.1 == k then (kv.1, v) else kv)
  else e ++ [(k, v)]

/-- JS array index assignment `a[i] = v`: in-bounds cells are replaced, an
assignment at or past the length extends the array, creating holes. -/
def jsArraySet (l : List (Option String)) (i : Nat) (v : String) : List (Option String) :=
  if i < l.length then l.set i (some v)
  else l ++ List.replicate (i - l.length) none ++ [some v]

/-- The body of `cleanEnv` for one `confidentialData` entry.  The env
variable is replaced when truthy (present and non-empty).  For each CLI
flag, `findIndex` locates the first occurrence in `argv` and the successor
cell of `argv` is replaced; then `findIndex` locates the first occurrence in
`execArgv` but — mirroring the source exactly — the replacement is again
written into `argv` at that index's successor, not into `execArgv`. -/
def cleanEnvEntry (st : ProcessState) (entry : CredentialEntry) : ProcessState :=
  let st1 : ProcessState :=
    match envGet st.env entry.envKey with
    | some v =>
      if v != "" then ⟨envSet st.env entry.envKey entry.replacement, st.argv, st.execArgv⟩
      else st
    | none => st
  entry.cli.foldl
    (fun st2 flag =>
      let st3 : ProcessState :=
        match st2.argv.findIdx? (fun cell => cell == some flag) with
        | some i => ⟨st2.env, jsArraySet st2.argv (i + 1) entry.replacement, st2.execArgv⟩
        | none => st2
      match st3.execArgv.findIdx? (fun cell => cell == some flag) with
      | some i => ⟨st3.env, jsArraySet st3.argv (i + 1) entry.replacement, st3.execArgv⟩
      | none => st3)
    st1

/-- `ErrorHandler.cleanEnv`: folds the three credential entries, in table
order, over the process state. -/
def cleanEnv (st : ProcessState) : ProcessState :=
  confidentialData.foldl cleanEnvEntry st

/-- C2: evaluating `cleanEnv` at a state whose `execArgv` passes a trust
token via `-T` shows the bug of the source's execArgv branch: the token is
still present in `execArgv` afterwards (and the placeholder was written
into `argv` instead). -/
theorem cleanEnv_execArgv_counterexample :
    (cleanEnv ⟨[], [some "node", some "main.js"], [some "-T", some "secretToken"]⟩).execArgv =
      [some "-T", some "secretToken"] ∧
    (cleanEnv ⟨[], [some "node", some "main.js"], [some "-T", some "secretToken"]⟩).argv =
      [some "node", some "<TRUST TOKEN>"] := by
  refine ⟨by decide, by decide⟩

/-! ## MFA server (modelled from the spec) -/

/-- An event observable on the MFA server's emitter. -/
inductive MFAEvent where
  | mfaReceived (method : MFAMethod) (code : String)
  | mfaResend (method : MFAMethod)
  | warning (msg : String)
deriving DecidableEq, Repr

/-- A response sent by the MFA server: HTTP status and body message (the
body is serialized as a JSON object around the message). -/
structure ServerResponse where
  status : Nat
  message : String
deriving DecidableEq, Repr

/-- Modelled from the spec: the MFA code validation of
`MFAServer.handleMFACode` (mfa-server.ts is not in the provided sources) —
"validate that the code is exactly six decimal digits". -/
def isValidMFACode (code : String) : Bool :=
  code.length == 6 && code.toList.all (fun c => c.isDigit)

/-- Modelled from the spec: `MFAServer.handleMFACode` (mfa-server.ts is not
in the provided sources).  Per spec 4.B and scenarios S1/S2: a six-digit
code is confirmed with HTTP 200 and one `MFA_RECEIVED` event carrying the
currently active method and the code; anything else is rejected with HTTP
400 and a warning, with no `MFA_RECEIVED` event.  Message texts follow the
unit tests of the repository. -/
def handleMFACode (method : MFAMethod) (code : String) :
    ServerResponse × List MFAEvent :=
  if isValidMFACode code then
    (⟨200, "Read MFA code: " ++ code⟩, [MFAEvent.mfaReceived method code])
  else
    (⟨400, "Unexpected MFA code format! Expecting 6 digits"⟩,
     [MFAEvent.warning "Received unexpected MFA code format, expecting 6 digits"])

/-- C3: a code of exactly six decimal digits is answered 200 with message
`Read MFA code: code` and exactly one `MFA_RECEIVED` event carrying the
current method and the code; any other code is answered 400 with message
`Unexpected MFA code format! Expecting 6 digits`, a warning is emitted, and
no `MFA_RECEIVED` event occurs. -/
theorem handleMFACode_spec :
    ∀ (m : MFAMethod) (code : String),
      ((code.length = 6 ∧ ∀ c ∈ code.toList, c.isDigit = true) →
        handleMFACode m code =
          (⟨200, "Read MFA code: " ++ code⟩, [MFAEvent.mfaReceived m code])) ∧
      (¬(code.length = 6 ∧ ∀ c ∈ code.toList, c.isDigit = true) →
        (handleMFACode m code).1 =
          ⟨400, "Unexpected MFA code format! Expecting 6 digits"⟩ ∧
        (∃ w, MFAEvent.warning w ∈ (handleMFACode m code).2) ∧
        (∀ meth c, MFAEvent.mfaReceived meth c ∉ (handleMFACode m code).2)) := by
  intro m code
  have hv : isValidMFACode code = true ↔
      (code.length = 6 ∧ ∀ c ∈ code.toList, c.isDigit = true) := by
    simp [isValidMFACode, List.all_eq_true]
  constructor
  · intro h
    simp [handleMFACode, hv.mpr h]
  · intro h
    have hf : isValidMFACode code = false := by
      cases hb : isValidMFACode code
      · rfl
      · exact absurd (hv.mp hb) h
    refine ⟨by simp [handleMFACode, hf], ?_, ?_⟩
    · exact ⟨"Received unexpected MFA code format, expecting 6 digits",
        by simp [handleMFACode, hf]⟩
    · intro meth c
      simp [handleMFACode, hf]

/-- The `/mfa` endpoint path constant. -/
def ENDPOINT_CODE_INPUT : String := "/mfa"

/-- The `/resend_mfa` endpoint path constant. -/
def ENDPOINT_RESEND_CODE : String := "/resend_mfa"

/-- `String.startsWith`, computed on the character lists (kernel-reducible
form of the library function). -/
def strStartsWith (s p : String) : Bool :=
  p.toList.isPrefixOf s.toList

/-- A request URL matches an endpoint when it is the endpoint itself or the
endpoint followed by a query string. -/
def matchesEndpoint (endpointPath url : String) : Bool :=
  url == endpointPath || strStartsWith url (endpointPath ++ "?")

/-- The routing decision of the MFA server for one incoming request. -/
inductive RouteResult where
  | direct (resp : ServerResponse) (events : List MFAEvent)
  | codeHandler
  | resendHandler
deriving DecidableEq, Repr

/-- Modelled from the spec: `MFAServer.handleRequest` (mfa-server.ts is not
in the provided sources).  Per spec 4.B: `GET /` answers an identity banner;
`POST` to the `/mfa` and `/resend_mfa` routes dispatches to the respective
handler; a `GET` (or other non-POST) request to any other route is answered
400 with a method-not-supported message plus a warning; a `POST` to an
unknown route is answered 404 with the list of known endpoints plus a
warning.  Message texts follow the unit tests of the repository. -/
def handleRequest (method url : String) : RouteResult :=
  if method == "GET" && url == "/" then
    RouteResult.direct ⟨200, "MFA Server up & running - icloud-photos-sync"⟩ []
  else if method == "POST" && matchesEndpoint ENDPOINT_CODE_INPUT url then
    RouteResult.codeHandler
  else if method == "POST" && matchesEndpoint ENDPOINT_RESEND_CODE url then
    RouteResult.resendHandler
  else if method != "POST" then
    RouteResult.direct ⟨400, "Method not supported: " ++ method⟩
      [MFAEvent.warning ("Received unknown method to endpoint " ++ url ++ ": " ++ method)]
  else
    RouteResult.direct ⟨404, "Route not found, available endpoints: [\"/mfa\",\"/resend_mfa\"]"⟩
      [MFAEvent.warning ("Received request to unknown endpoint " ++ url)]

/-- C8: a request whose URL matches neither `/` nor a known endpoint never
reaches the code or resend handler; a `GET` is answered 400 with the
method-not-supported message and a warning, a `POST` is answered 404 with
the message listing the known endpoints and a warning. -/
theorem handleRequest_unknown_route_spec
    (url : String)
    (hRoot : url ≠ "/")
    (hCode : matchesEndpoint ENDPOINT_CODE_INPUT url = false)
    (hResend : matchesEndpoint ENDPOINT_RESEND_CODE url = false) :
    handleRequest "GET" url =
      RouteResult.direct ⟨400, "Method not supported: GET"⟩
        [MFAEvent.warning ("Received unknown method to endpoint " ++ url ++ ": " ++ "GET")] ∧
    handleRequest "POST" url =
      RouteResult.direct
        ⟨404, "Route not found, available endpoints: [\"/mfa\",\"/resend_mfa\"]"⟩
        [MFAEvent.warning ("Received request to unknown endpoint " ++ url)] ∧
    handleRequest "GET" url ≠ RouteResult.codeHandler ∧
    handleRequest "GET" url ≠ RouteResult.resendHandler ∧
    handleRequest "POST" url ≠ RouteResult.codeHandler ∧
    handleRequest "POST" url ≠ RouteResult.resendHandler := by
  have hG : handleRequest "GET" url =
      RouteResult.direct ⟨400, "Method not supported: GET"⟩
        [MFAEvent.warning
          ("Received unknown method to endpoint " ++ url ++ ": " ++ "GET")] := by
    simp [handleRequest, hRoot, hCode, hResend]
  have hP : handleRequest "POST" url =
      RouteResult.direct
        ⟨404, "Route not found, available endpoints: [\"/mfa\",\"/resend_mfa\"]"⟩
        [MFAEvent.warning ("Received request to unknown endpoint " ++ url)] := by
    simp [handleRequest, hCode, hResend]
  refine ⟨hG, hP, ?_, ?_, ?_, ?_⟩ <;> simp [hG, hP]

/-- Witness for C8 at the unit-test input `/invalid`. -/
theorem handleRequest_unknown_route_witness :
    handleRequest "GET" "/invalid" =
      RouteResult.direct ⟨400, "Method not supported: GET"⟩
        [MFAEvent.warning "Received unknown method to endpoint /invalid: GET"] ∧
    handleRequest "POST" "/invalid" =
      RouteResult.direct
        ⟨404, "Route not found, available endpoints: [\"/mfa\",\"/resend_mfa\"]"⟩
        [MFAEvent.warning "Received request to unknown endpoint /invalid"] := by
  have h := handleRequest_unknown_route_spec "/invalid" (by decide) (by decide) (by decide)
  exact ⟨h.1, h.2.1⟩

/-! ## App run control flow (src/app/src/app/icloud-app.ts,
`iCloudApp.run` / `SyncApp.run` / `ArchiveApp.run`) -/

/-- A remote asset, identified by its record name (only identity matters to
the control-flow claims). -/
structure Asset where
  recordName : String
deriving DecidableEq, Repr

/-- An album (only identity matters to the control-flow claims). -/
structure Album where
  uuid : String
deriving DecidableEq, Repr

/-- The application's error hierarchy, as far as the run methods build it:
each wrapping constructor corresponds to one `catch` block, engine-level
failures are the leaves, and `ArchiveError` additionally carries the
`archivePath` context attached by `ArchiveApp.run`. -/
inductive AppError where
  | engineError (msg : String)
  | libraryError (msg : String) (cause : AppError)
  | icloudError (msg : String) (cause : AppError)
  | syncError (msg : String) (cause : AppError)
  | archiveError (msg : String) (cause : AppError) (archivePathCtx : String)
deriving DecidableEq, Repr

/-- Outcomes of the external stages a run performs, abstracting lock
acquisition, iCloud authentication, the sync engine, and the archive
engine.  Each field is the result the corresponding awaited call would
produce. -/
structure RunEnv where
  acquireResult : Except AppError Unit
  authResult : Except AppError Unit
  syncResult : Except AppError (List Asset × List Album)
  archiveResult : Except AppError Unit

/-- Steps observable during a run: the archive engine being invoked (with
the asset list it was handed) and `clean` — which releases the library
lock — being executed. -/
inductive RunEvent where
  | archiveCalled (assets : List Asset)
  | cleaned
deriving DecidableEq, Repr

/-- `iCloudApp.run`: acquire the library lock (failure wrapped in
`LibraryError "Unable to acquire lock"`), then authenticate (failure
wrapped in `iCloudError "Authentication failed"`). -/
def iCloudAppRun (env : RunEnv) : Except AppError Unit :=
  match env.acquireResult with
  | Except.error e => Except.error (AppError.libraryError "Unable to acquire lock" e)
  | Except.ok _ =>
    match env.authResult with
    | Except.error e => Except.error (AppError.icloudError "Authentication failed" e)
    | Except.ok _ => Except.ok ()

/-- `SyncApp.run`: run the inherited prelude, then the sync engine; any
failure is wrapped in `SyncError "Sync failed"`.  The `finally` block
executes `clean` only when the initiated class is `SyncApp` itself
(`isInitiatedClass`), which is false when running as part of
`ArchiveApp`. -/
def syncAppRun (env : RunEnv) (isInitiatedClass : Bool) :
    Except AppError (List Asset × List Album) × List RunEvent :=
  let body : Except AppError (List Asset × List Album) :=
    match iCloudAppRun env with
    | Except.error e => Except.error (AppError.syncError "Sync failed" e)
    | Except.ok _ =>
      match env.syncResult with
      | Except.error e => Except.error (AppError.syncError "Sync failed" e)
      | Except.ok r => Except.ok r
  (body, if isInitiatedClass then [RunEvent.cleaned] else [])

/-- `ArchiveApp.run`: run the inherited sync (as `ArchiveApp`, so the
`SyncApp` `finally` does not clean), destructure its result into the remote
asset list, hand that list to `archiveEngine.archivePath`; any failure is
wrapped in `ArchiveError "Archive failed"` carrying the archive path as
context; the `finally` block always executes `clean`. -/
def archiveAppRun (env : RunEnv) (archivePath : String) :
    Except AppError Unit × List RunEvent :=
  let sync := syncAppRun env false
  match sync.1 with
  | Except.error e =>
    (Except.error (AppError.archiveError "Archive failed" e archivePath),
     sync.2 ++ [RunEvent.cleaned])
  | Except.ok (remoteAssets, _albums) =>
    match env.archiveResult with
    | Except.error e =>
      (Except.error (AppError.archiveError "Archive failed" e archivePath),
       sync.2 ++ [RunEvent.archiveCalled remoteAssets, RunEvent.cleaned])
    | Except.ok _ =>
      (Except.ok (), sync.2 ++ [RunEvent.archiveCalled remoteAssets, RunEvent.cleaned])

/-- C10: an `ArchiveApp` run invokes the archive engine iff lock
acquisition, authentication and the sync all succeeded, and then hands it
exactly the remote asset list the sync returned; every failure surfaces as
an `ArchiveError` carrying the archive path; and `clean` (which releases
the library lock) runs exactly once in all outcomes. -/
theorem archiveAppRun_spec :
    ∀ (env : RunEnv) (archivePath : String),
      ((∃ assets, RunEvent.archiveCalled assets ∈ (archiveAppRun env archivePath).2) ↔
        (env.acquireResult = Except.ok () ∧ env.authResult = Except.ok () ∧
          ∃ r, env.syncResult = Except.ok r)) ∧
      (∀ assets albums, env.acquireResult = Except.ok () → env.authResult = Except.ok () →
        env.syncResult = Except.ok (assets, albums) →
        RunEvent.archiveCalled assets ∈ (archiveAppRun env archivePath).2) ∧
      (∀ e, (archiveAppRun env archivePath).1 = Except.error e →
        ∃ cause, e = AppError.archiveError "Archive failed" cause archivePath) ∧
      (archiveAppRun env archivePath).2.count RunEvent.cleaned = 1 := by
  intro env archivePath
  obtain ⟨acq, auth, sync, arch⟩ := env
  cases acq <;> cases auth <;> cases sync <;> cases arch <;>
    simp_all [archiveAppRun, syncAppRun, iCloudAppRun, List.count_cons]
